import Mathlib

/-!
Shallow embedding of the Gatekeeper mutating-webhook request pipeline
(`pkg/webhook/mutation.go`, `pkg/webhook/common.go`, and the sibling skeleton
handler file), together with theorems settling the frozen claims about it.

External collaborators (object-store client, evaluation engine, metrics
reporter) are modelled as oracle functions carried in the handler record;
the pipeline's own control flow is translated statement-by-statement from
the Go source. Go `nil`-pointer values are modelled with `Option`, and a Go
runtime panic surfaces as `none` in an `Option`-valued result. Durations are
modelled as `Nat` (Go's monotonic-clock `time.Since` is non-negative).
-/

/-- Model of `metav1.GroupVersionKind` / `v1alpha1.GVK`: group, version, kind. -/
structure GVK where
  group : String
  version : String
  kind : String
deriving DecidableEq, Repr

/-- Model of `authenticationv1.UserInfo`, restricted to the field the pipeline reads. -/
structure UserInfo where
  username : String
deriving DecidableEq, Repr

/-- Model of `runtime.RawExtension`: `Raw` is a byte slice that may be nil. -/
structure RawExtension where
  raw : Option (List Nat)
deriving DecidableEq, Repr

/-- The fields of `admissionv1beta1.AdmissionRequest` the pipeline reads.
`operation` is the Go string-typed operation ("CREATE", "UPDATE", ...). -/
structure AdmissionRequest where
  operation : String
  userInfo : UserInfo
  kind : GVK
  nspace : String
  name : String
  object : RawExtension
deriving DecidableEq, Repr

/-- Constant `admissionv1beta1.Create`. -/
def operationCreate : String := "CREATE"

/-- Constant `admissionv1beta1.Update`. -/
def operationUpdate : String := "UPDATE"

/-- Constraint identity read from `r.Constraint` (an unstructured object):
`GetName`, `GetKind`, `GetNamespace`. -/
structure Constraint where
  name : String
  kind : String
  nspace : String
deriving DecidableEq, Repr

/-- Model of `rtypes.Result`: one violation result returned by the evaluation engine. -/
structure RTResult where
  enforcementAction : String
  constraint : Constraint
  msg : String
deriving DecidableEq, Repr

/-- A Go `error` as observed by this pipeline: its `Error()` text plus
whether `k8serrors.IsNotFound` holds for it. -/
structure GoErr where
  notFound : Bool
  msg : String
deriving DecidableEq, Repr

deriving instance DecidableEq for Except

/-- Model of `corev1.Namespace`, abstracted to its name (the pipeline only fetches
and attaches it, never inspects fields). -/
structure KNamespace where
  name : String
deriving DecidableEq, Repr

/-- One trace spec of `v1alpha1.Config`'s `Spec.Validation.Traces` list. -/
structure Trace where
  user : String
  kind : GVK
  dump : String
deriving DecidableEq, Repr

/-- Model of `v1alpha1.Config`, flattened to the `Spec.Validation.Traces` list, the
only part the pipeline reads. -/
structure Config where
  traces : List Trace
deriving DecidableEq, Repr

/-- Model of `metav1.Status` restricted to the fields the pipeline writes:
`Code` (int32, zero value 0) and `Reason` (message text). -/
structure MetaStatus where
  code : Nat
  reason : String
deriving DecidableEq, Repr

/-- Model of `admission.Response` restricted to the fields the pipeline writes:
`Allowed` and the `Result` pointer (`none` models a nil `*metav1.Status`). -/
structure AdmResponse where
  allowed : Bool
  result : Option MetaStatus
deriving DecidableEq, Repr

/-- Model of `target.AugmentedReview`: the admission request plus the optionally
attached namespace object. -/
structure AugmentedReview where
  request : AdmissionRequest
  nspace : Option KNamespace
deriving DecidableEq, Repr

/-- Embedding of controller-runtime v0.5 `admission.ValidationResponse`: `Result` is set
only when the reason string is non-empty (hence the nil-checks at the call
sites in `Handle`). -/
def ValidationResponse (allowed : Bool) (reason : String) : AdmResponse :=
  { allowed := allowed
    result := if reason.length > 0 then some { code := 0, reason := reason } else none }

/-- The `if vResp.Result == nil { vResp.Result = &metav1.Status{} };
vResp.Result.Code = c` pattern in `Handle`. -/
def withStatusCode (r : AdmResponse) (c : Nat) : AdmResponse :=
  match r.result with
  | none => { r with result := some { code := c, reason := "" } }
  | some s => { r with result := some { s with code := c } }

/-- The message text carried by a response (`Result.Reason`, or empty when
`Result` is nil). -/
def respMessage (r : AdmResponse) : String :=
  match r.result with
  | none => ""
  | some s => s.reason

/-- Embedding of Go `strings.Join(elems, sep)`. -/
def stringsJoin (sep : String) : List String → String
  | [] => ""
  | [a] => a
  | a :: as => a ++ sep ++ stringsJoin sep as

/-- Go `strings.EqualFold`, restricted to the ASCII folding the call site
(comparison against the literal "All") exercises. -/
def eqFold (a b : String) : Bool :=
  a.data.map Char.toLower == b.data.map Char.toLower

/-- The `mutationResponse` outcome tags of `mutation.go`. -/
def mutationErrorResponse : String := "error"

def mutationDenyResponse : String := "deny"

def mutationAllowResponse : String := "allow"

def mutationSkipResponse : String := "skip"

def mutationUnknownResponse : String := "unknown"

/-- The `mutationHandler` receiver together with the oracle behaviour of its
external collaborators for the one request under consideration:
`clientGetConfig` is the outcome of `h.client.Get(ctx, keys.Config, cfg)`
(on error the passed-in `cfg` keeps its zero value), `clientGetNamespace` /
`readerGetNamespace` are the cached and uncached namespace reads,
`opaReview` is `h.opa.Review` under a given tracing flag, `decodeRaw` is
`deserializer.Decode` followed by `obj.GetName()` (`none` models a decode
error), and `logDenies` / `emitAdmissionEvents` are the process-wide flags.
`clientPresent` models `h.client != nil`, `reporterPresent` models
`h.reporter != nil`, and `elapsed` is the `time.Since(timeStart)` duration
observed by the deferred reporter call. -/
structure mutationHandler where
  serviceaccount : String
  injectedConfig : Option Config
  clientPresent : Bool
  clientGetConfig : Except GoErr Config
  clientGetNamespace : String → Except GoErr KNamespace
  readerGetNamespace : String → Except GoErr KNamespace
  opaReview : AugmentedReview → Bool → Except GoErr (List RTResult)
  isNamespaceExcluded : String → Bool
  logDenies : Bool
  emitAdmissionEvents : Bool
  decodeRaw : List Nat → Option String
  reporterPresent : Bool
  elapsed : Nat

/-- Embedding of `isGkServiceAccount` from `common.go`. -/
def isGkServiceAccount (h : mutationHandler) (user : UserInfo) : Bool :=
  user.username == h.serviceaccount

/-- Embedding of `mutationHandler.isGatekeeperResource`. -/
def isGatekeeperResource (req : AdmissionRequest) : Bool :=
  req.kind.group == "templates.gatekeeper.sh" ||
    req.kind.group == "constraints.gatekeeper.sh"

/-- Embedding of `mutationHandler.skipExcludedNamespace`. -/
def skipExcludedNamespace (h : mutationHandler) (ns : String) : Bool :=
  h.isNamespaceExcluded ns

/-- Embedding of `mutationHandler.getConfig`: first component is the returned `*Config`
pointer (`none` = Go nil), second the returned error. With no injected
config and no client it returns `(nil, error)`; on a fetch error it returns
the zero-valued config alongside the error. -/
def getConfig (h : mutationHandler) : Option Config × Option GoErr :=
  match h.injectedConfig with
  | some c => (some c, none)
  | none =>
    if h.clientPresent then
      match h.clientGetConfig with
      | .ok c => (some c, none)
      | .error e => (some { traces := [] }, some e)
    else (none, some { notFound := false, msg := "no client available to retrieve validation config" })

/-- The loop body of `mutationHandler.tracingLevel`, with the two mutable
locals `traceEnabled` and `dump` threaded as accumulators. -/
def tracingLoop (username : String) (gvk : GVK) :
    List Trace → Bool → Bool → Bool × Bool
  | [], traceEnabled, dump => (traceEnabled, dump)
  | t :: ts, traceEnabled, dump =>
    if t.user != username then
      tracingLoop username gvk ts traceEnabled dump
    else if gvk == t.kind then
      tracingLoop username gvk ts true (if eqFold t.dump "All" then true else dump)
    else
      tracingLoop username gvk ts traceEnabled dump

/-- Embedding of `mutationHandler.tracingLevel`: ignores `getConfig`'s error and iterates
`cfg.Spec.Validation.Traces`. When `getConfig` returned a nil pointer the Go
code dereferences it (`cfg.Spec`), a runtime panic, modelled as `none`. -/
def tracingLevel (h : mutationHandler) (req : AdmissionRequest) : Option (Bool × Bool) :=
  match (getConfig h).1 with
  | none => none
  | some cfg =>
    some (tracingLoop req.userInfo.username
      { group := req.kind.group, version := req.kind.version, kind := req.kind.kind }
      cfg.traces false false)

/-- The server-side-apply coercion in `reviewRequest`: a Namespace-kind
request (core group) has its namespace field cleared. -/
def coerceNamespaceKind (req : AdmissionRequest) : AdmissionRequest :=
  if req.kind.kind == "Namespace" && req.kind.group == "" then
    { req with nspace := "" }
  else req

/-- Which external calls `reviewRequest` performed and what it attached to
the review context. -/
structure ReviewEffects where
  clientNsGet : Bool
  readerNsGet : Bool
  attachedNs : Option KNamespace
  trace : Bool
  dump : Bool
deriving DecidableEq, Repr

/-- Embedding of `mutationHandler.reviewRequest`: computes the tracing directive, clears
the namespace for Namespace-kind requests, resolves the namespace object
(cached read, uncached fallback on not-found) and dispatches to
`h.opa.Review`. Outer `none` models the panic propagating out of
`tracingLevel`. -/
def reviewRequest (h : mutationHandler) (req : AdmissionRequest) :
    Option (Except GoErr (List RTResult) × ReviewEffects) :=
  match tracingLevel h req with
  | none => none
  | some (trace, dump) =>
    let req := coerceNamespaceKind req
    if req.nspace != "" then
      match h.clientGetNamespace req.nspace with
      | .ok ns =>
        some (h.opaReview { request := req, nspace := some ns } trace,
          { clientNsGet := true, readerNsGet := false, attachedNs := some ns,
            trace := trace, dump := dump })
      | .error e =>
        if !e.notFound then
          some (.error e,
            { clientNsGet := true, readerNsGet := false, attachedNs := none,
              trace := trace, dump := dump })
        else
          match h.readerGetNamespace req.nspace with
          | .ok ns =>
            some (h.opaReview { request := req, nspace := some ns } trace,
              { clientNsGet := true, readerNsGet := true, attachedNs := some ns,
                trace := trace, dump := dump })
          | .error e2 =>
            some (.error e2,
              { clientNsGet := true, readerNsGet := true, attachedNs := none,
                trace := trace, dump := dump })
    else
      some (h.opaReview { request := req, nspace := none } trace,
        { clientNsGet := false, readerNsGet := false, attachedNs := none,
          trace := trace, dump := dump })

/-- The deny-message format string `"[denied by %s] %s"`. -/
def fmtDeny (constraintName msg : String) : String :=
  "[denied by " ++ constraintName ++ "] " ++ msg

/-- The result-aggregation loop of `getDenyMessages`: only `deny` actions
append a formatted message (`msgs = append(msgs, ...)`). -/
def getDenyMessagesLoop : List RTResult → List String → List String
  | [], msgs => msgs
  | r :: rest, msgs =>
    getDenyMessagesLoop rest
      (if r.enforcementAction == "deny" then
        msgs ++ [fmtDeny r.constraint.name r.msg]
      else msgs)

/-- The resource-name resolution prefix of `getDenyMessages`: second
component records whether the raw-payload decode was attempted. -/
def resourceNameResolution (h : mutationHandler) (res : List RTResult)
    (req : AdmissionRequest) : String × Bool :=
  if res.length > 0 && (h.logDenies || h.emitAdmissionEvents) then
    let resourceName := req.name
    if resourceName.length == 0 then
      match req.object.raw with
      | some raw =>
        match h.decodeRaw raw with
        | some objName => (objName, true)
        | none => (resourceName, true)
      | none => (resourceName, false)
    else (resourceName, false)
  else ("", false)

/-- Outputs of `mutationHandler.getDenyMessages`: the returned message list
plus the resolved display name and whether the decode ran (used only for
logging and event emission in the source). -/
structure DenyAggregation where
  msgs : List String
  resourceName : String
  nameDecodeAttempted : Bool
deriving DecidableEq, Repr

/-- Embedding of `mutationHandler.getDenyMessages`. -/
def getDenyMessages (h : mutationHandler) (res : List RTResult)
    (req : AdmissionRequest) : DenyAggregation :=
  let nr := resourceNameResolution h res req
  { msgs := getDenyMessagesLoop res []
    resourceName := nr.1
    nameDecodeAttempted := nr.2 }

/-- One reporter invocation: outcome tag and elapsed duration. -/
abbrev ReportCall := String × Nat

/-- The deferred `h.reporter.ReportMutationRequest` call, guarded by
`h.reporter != nil`. -/
def report (h : mutationHandler) (tag : String) : List ReportCall :=
  if h.reporterPresent then [(tag, h.elapsed)] else []

/-- A run of `Handle`: the response (`none` models the `tracingLevel` panic
escaping the handler) and the reporter invocations that occurred. -/
structure HandleResult where
  resp : Option AdmResponse
  reports : List ReportCall
deriving DecidableEq, Repr

/-- Embedding of `mutationHandler.Handle` from `mutation.go`. The first three filter
checks return before the reporter `defer` is registered, so they produce no
reporter call; every later exit (including the panic, which runs deferred
functions while unwinding) reports exactly once when the reporter is
non-nil. -/
def Handle (h : mutationHandler) (req : AdmissionRequest) : HandleResult :=
  if isGkServiceAccount h req.userInfo then
    { resp := some (ValidationResponse true "Gatekeeper does not self-manage"), reports := [] }
  else if req.operation != operationCreate && req.operation != operationUpdate then
    { resp := some (ValidationResponse true "Mutating only on create"), reports := [] }
  else if isGatekeeperResource req then
    { resp := some (ValidationResponse true "Not mutating gatekeeper resources"), reports := [] }
  else if skipExcludedNamespace h req.nspace then
    { resp := some (ValidationResponse true "Namespace is set to be ignored by Gatekeeper config")
      reports := report h mutationSkipResponse }
  else
    match reviewRequest h req with
    | none =>
      { resp := none, reports := report h mutationUnknownResponse }
    | some (.error e, _) =>
      { resp := some (withStatusCode (ValidationResponse false e.msg) 500)
        reports := report h mutationErrorResponse }
    | some (.ok res, _) =>
      let msgs := (getDenyMessages h res req).msgs
      if msgs.length > 0 then
        { resp := some (withStatusCode (ValidationResponse false (stringsJoin "\n" msgs)) 403)
          reports := report h mutationDenyResponse }
      else
        { resp := some (ValidationResponse true ""), reports := report h mutationAllowResponse }

/-- Embedding of `mutationHandler.mutateRequest` from the sibling skeleton handler file:
the mutation body is unimplemented and always returns an allow with status
200 and no error. -/
def mutateRequest (_h : mutationHandler) (_req : AdmissionRequest) :
    Except GoErr AdmResponse :=
  .ok { allowed := true, result := some { code := 200, reason := "" } }

/-- The sibling skeleton `mutationHandler.Handle`, with the result of the
`h.mutateRequest` call site passed explicitly so its (currently dead) error
branch can be stated; on error it returns `Allowed: true` with status 500
and leaves the outcome tag at `unknown`. -/
def skeletonHandleWith (h : mutationHandler) (req : AdmissionRequest)
    (mutateResult : Except GoErr AdmResponse) : HandleResult :=
  if isGkServiceAccount h req.userInfo then
    { resp := some (ValidationResponse true "Gatekeeper does not self-manage"), reports := [] }
  else if req.operation != operationCreate && req.operation != operationUpdate then
    { resp := some (ValidationResponse true "Mutating only on create"), reports := [] }
  else if isGatekeeperResource req then
    { resp := some (ValidationResponse true "Not mutating gatekeeper resources"), reports := [] }
  else if skipExcludedNamespace h req.nspace then
    { resp := some (ValidationResponse true "Namespace is set to be ignored by Gatekeeper config")
      reports := report h mutationSkipResponse }
  else
    match mutateResult with
    | .error _ =>
      { resp := some { allowed := true, result := some { code := 500, reason := "" } }
        reports := report h mutationUnknownResponse }
    | .ok resp =>
      { resp := some resp, reports := report h mutationUnknownResponse }

/-- The sibling skeleton `Handle` as it runs in the source. -/
def skeletonHandle (h : mutationHandler) (req : AdmissionRequest) : HandleResult :=
  skeletonHandleWith h req (mutateRequest h req)

/-! ## Helper definitions and lemmas -/

/-- The message a single result contributes to the deny list: `some` exactly
for `deny` enforcement actions. -/
def denyFmtOpt (r : RTResult) : Option String :=
  if r.enforcementAction == "deny" then some (fmtDeny r.constraint.name r.msg) else none

/-- Whether a trace spec matches a request: exact user match and exact
group/version/kind match, as tested by the `tracingLevel` loop. -/
def traceMatches (username : String) (gvk : GVK) (t : Trace) : Bool :=
  (t.user == username) && (gvk == t.kind)

theorem getDenyMessagesLoop_eq (res : List RTResult) :
    ∀ msgs : List String,
      getDenyMessagesLoop res msgs = msgs ++ res.filterMap denyFmtOpt := by
  induction res with
  | nil => intro msgs; simp [getDenyMessagesLoop]
  | cons r rest ih =>
    intro msgs
    simp only [getDenyMessagesLoop, List.filterMap_cons, denyFmtOpt]
    by_cases hd : (r.enforcementAction == "deny") = true
    · simp [hd, ih]
    · simp only [Bool.not_eq_true] at hd
      simp [hd, ih]

theorem filterMap_denyFmtOpt_eq_nil_iff (res : List RTResult) :
    res.filterMap denyFmtOpt = [] ↔
      res.any (fun r => r.enforcementAction == "deny") = false := by
  induction res with
  | nil => simp
  | cons r rest ih =>
    simp only [List.filterMap_cons, List.any_cons, denyFmtOpt]
    by_cases hd : (r.enforcementAction == "deny") = true
    · simp [hd]
    · simp only [Bool.not_eq_true] at hd
      simp [hd, ih]

theorem fmtDeny_length_pos (n m : String) : 0 < (fmtDeny n m).length := by
  simp only [fmtDeny, String.length_append]
  have : (0:Nat) < ("[denied by " : String).length := by decide
  omega

theorem stringsJoin_length_pos (sep : String) (m : String) (rest : List String)
    (hm : 0 < m.length) : 0 < (stringsJoin sep (m :: rest)).length := by
  cases rest with
  | nil => simpa [stringsJoin] using hm
  | cons b bs =>
    simp only [stringsJoin, String.length_append]
    omega

theorem string_eq_empty_of_length_eq_zero {s : String} (h : s.length = 0) : s = "" :=
  String.ext (List.length_eq_zero.mp h)

theorem withStatusCode_ValidationResponse (allowed : Bool) (m : String) (c : Nat) :
    withStatusCode (ValidationResponse allowed m) c =
      { allowed := allowed, result := some { code := c, reason := m } } := by
  simp only [ValidationResponse, withStatusCode]
  by_cases hm : 0 < m.length
  · simp [hm]
  · have hz : m.length = 0 := by omega
    have : m = "" := string_eq_empty_of_length_eq_zero hz
    subst this
    simp

theorem tracingLoop_eq (username : String) (gvk : GVK) (ts : List Trace) :
    ∀ traceEnabled dump : Bool,
      tracingLoop username gvk ts traceEnabled dump =
        (traceEnabled || ts.any (traceMatches username gvk),
         dump || ts.any (fun t => traceMatches username gvk t && eqFold t.dump "All")) := by
  induction ts with
  | nil => intro en du; simp [tracingLoop]
  | cons t ts ih =>
    intro en du
    simp only [tracingLoop, List.any_cons]
    by_cases hu : (t.user == username) = true
    · have hne : (t.user != username) = false := by simp [bne, hu]
      by_cases hk : (gvk == t.kind) = true
      · by_cases hf : (eqFold t.dump "All") = true
        · simp [hne, hu, hk, hf, ih, traceMatches]
        · simp only [Bool.not_eq_true] at hf
          simp [hne, hu, hk, hf, ih, traceMatches, Bool.or_assoc]
      · simp only [Bool.not_eq_true] at hk
        simp [hne, hu, hk, ih, traceMatches]
    · have hne : (t.user != username) = true := by simp [bne, hu]
      simp only [Bool.not_eq_true] at hu
      simp [hne, hu, ih, traceMatches]

theorem tracingLevel_eq (h : mutationHandler) (req : AdmissionRequest) :
    tracingLevel h req =
      (getConfig h).1.map (fun cfg =>
        (cfg.traces.any (traceMatches req.userInfo.username req.kind),
         cfg.traces.any (fun t =>
           traceMatches req.userInfo.username req.kind t && eqFold t.dump "All"))) := by
  simp only [tracingLevel]
  cases hc : (getConfig h).1 with
  | none => simp
  | some cfg => simp [tracingLoop_eq]

/-! ## Concrete instances used by witnesses and counterexamples -/

/-- A concrete handler: client and reporter present, empty injected config,
engine returning no results, nothing excluded, flags off. -/
def baseHandler : mutationHandler :=
  { serviceaccount := "system:serviceaccount:gatekeeper-system:gatekeeper-admin"
    injectedConfig := some { traces := [] }
    clientPresent := true
    clientGetConfig := .ok { traces := [] }
    clientGetNamespace := fun _ => .error { notFound := true, msg := "namespaces not found" }
    readerGetNamespace := fun _ => .error { notFound := true, msg := "namespaces not found" }
    opaReview := fun _ _ => .ok []
    isNamespaceExcluded := fun _ => false
    logDenies := false
    emitAdmissionEvents := false
    decodeRaw := fun _ => none
    reporterPresent := true
    elapsed := 5 }

/-- A concrete CREATE request for an ordinary resource in no namespace. -/
def baseRequest : AdmissionRequest :=
  { operation := "CREATE"
    userInfo := { username := "alice" }
    kind := { group := "apps", version := "v1", kind := "Deployment" }
    nspace := ""
    name := "mydep"
    object := { raw := none } }

/-- A single engine result carrying a deny enforcement action. -/
def denyResult : RTResult :=
  { enforcementAction := "deny"
    constraint := { name := "no-privileged", kind := "K8sNoPrivileged", nspace := "" }
    msg := "privileged containers forbidden" }

/-- A single engine result carrying a dryrun enforcement action. -/
def dryrunResult : RTResult :=
  { enforcementAction := "dryrun"
    constraint := { name := "audit-only", kind := "K8sAudit", nspace := "" }
    msg := "dryrun violation" }

/-! ## Claim theorems -/

/-- **C5**: for every request and every DynamicConfig trace-spec list
(delivered through `getConfig`, when non-nil), the tracing directive equals:
enabled exactly when some spec matches (exact user equality and exact
group/version/kind equality), and dump exactly when some matching spec's
dump field case-insensitively equals "All". -/
theorem c5_tracing_exact_match (h : mutationHandler) (req : AdmissionRequest) :
    tracingLevel h req =
      (getConfig h).1.map (fun cfg =>
        (cfg.traces.any (traceMatches req.userInfo.username req.kind),
         cfg.traces.any (fun t =>
           traceMatches req.userInfo.username req.kind t && eqFold t.dump "All"))) :=
  tracingLevel_eq h req

/-- **C10**: the tracing computation never yields `dump = true` with
`enabled = false`: whenever the computed directive has dump set, enabled is
set as well. -/
theorem c10_dump_implies_enabled (h : mutationHandler) (req : AdmissionRequest)
    (p : Bool × Bool) (hp : tracingLevel h req = some p) (hd : p.2 = true) :
    p.1 = true := by
  rw [tracingLevel_eq] at hp
  cases hc : (getConfig h).1 with
  | none => rw [hc] at hp; exact Option.noConfusion hp
  | some cfg =>
    rw [hc] at hp
    injection hp with hp
    subst hp
    simp only [List.any_eq_true] at hd ⊢
    obtain ⟨t, ht, hm⟩ := hd
    exact ⟨t, ht, ((Bool.and_eq_true _ _).mp hm).1⟩

/-- A handler whose config contains one trace spec matching `baseRequest`
with dump level "all". -/
def c10Handler : mutationHandler :=
  { baseHandler with
    injectedConfig := some
      { traces := [{ user := "alice"
                     kind := { group := "apps", version := "v1", kind := "Deployment" }
                     dump := "all" }] } }

/-- Witness for C10 at a concrete handler and request whose tracing
directive evaluates to `(true, true)`. -/
theorem c10_witness :
    tracingLevel c10Handler baseRequest = some (true, true) ∧
      ((true, true) : Bool × Bool).1 = true :=
  ⟨by decide, c10_dump_implies_enabled c10Handler baseRequest (true, true)
    (by decide) (by decide)⟩

/-- **C1**: once a request reaches evaluation and the engine returns results
`res`, the handler denies (allowed = false, HTTP 403, message = the deny
messages joined by a newline in engine-return order, each formatted
`"[denied by {constraint-name}] {msg}"`) exactly when some result has
enforcement action `deny`; `dryrun`, `warn` and other actions contribute no
message (only `deny` survives `denyFmtOpt`) and never cause a deny. -/
theorem c1_deny_iff_deny_action (h : mutationHandler) (req : AdmissionRequest)
    (res : List RTResult) (eff : ReviewEffects)
    (h1 : isGkServiceAccount h req.userInfo = false)
    (h2 : (req.operation != operationCreate && req.operation != operationUpdate) = false)
    (h3 : isGatekeeperResource req = false)
    (h4 : skipExcludedNamespace h req.nspace = false)
    (h5 : reviewRequest h req = some (.ok res, eff)) :
    (res.any (fun r => r.enforcementAction == "deny") = true →
      (Handle h req).resp =
        some ⟨false, some ⟨403, stringsJoin "\n" (res.filterMap denyFmtOpt)⟩⟩) ∧
    (res.any (fun r => r.enforcementAction == "deny") = false →
      (Handle h req).resp = some (ValidationResponse true "")) := by
  have hmsgs : (getDenyMessages h res req).msgs = res.filterMap denyFmtOpt := by
    simp [getDenyMessages, getDenyMessagesLoop_eq]
  constructor
  · intro hd
    have hne : res.filterMap denyFmtOpt ≠ [] := by
      intro hnil
      rw [filterMap_denyFmtOpt_eq_nil_iff] at hnil
      rw [hd] at hnil
      exact Bool.noConfusion hnil
    have hlen : 0 < (res.filterMap denyFmtOpt).length := List.length_pos.mpr hne
    simp only [Handle, h1, h2, h3, h4, h5, Bool.false_eq_true, if_false, hmsgs, hlen, if_pos]
    rw [withStatusCode_ValidationResponse]
  · intro hd
    have hnil : res.filterMap denyFmtOpt = [] :=
      (filterMap_denyFmtOpt_eq_nil_iff res).mpr hd
    simp only [Handle, h1, h2, h3, h4, h5, Bool.false_eq_true, if_false, hmsgs, hnil]
    simp

/-- Handler whose engine returns one deny result followed by one dryrun
result. -/
def c1Handler : mutationHandler :=
  { baseHandler with opaReview := fun _ _ => .ok [denyResult, dryrunResult] }

/-- Witness for C1: with one deny and one dryrun result the handler denies
with status 403 and exactly the deny message. -/
theorem c1_witness :
    reviewRequest c1Handler baseRequest =
      some (.ok [denyResult, dryrunResult], ⟨false, false, none, false, false⟩) ∧
    (Handle c1Handler baseRequest).resp =
      some ⟨false, some ⟨403,
        stringsJoin "\n" ([denyResult, dryrunResult].filterMap denyFmtOpt)⟩⟩ :=
  ⟨by decide,
    (c1_deny_iff_deny_action c1Handler baseRequest [denyResult, dryrunResult]
      ⟨false, false, none, false, false⟩
      (by decide) (by decide) (by decide) (by decide) (by decide)).1 (by decide)⟩

/-- **C2**: for a request that reaches evaluation, an error from
`reviewRequest` (namespace fetch or engine review) makes the handler fail
closed: allowed = false, HTTP status 500, message = the raw error text, and
the recorded outcome tag is `error`. -/
theorem c2_error_fails_closed (h : mutationHandler) (req : AdmissionRequest)
    (e : GoErr) (eff : ReviewEffects)
    (h1 : isGkServiceAccount h req.userInfo = false)
    (h2 : (req.operation != operationCreate && req.operation != operationUpdate) = false)
    (h3 : isGatekeeperResource req = false)
    (h4 : skipExcludedNamespace h req.nspace = false)
    (h5 : reviewRequest h req = some (.error e, eff))
    (h6 : h.reporterPresent = true) :
    (Handle h req).resp = some ⟨false, some ⟨500, e.msg⟩⟩ ∧
    (Handle h req).reports = [(mutationErrorResponse, h.elapsed)] := by
  simp only [Handle, h1, h2, h3, h4, h5, Bool.false_eq_true, if_false]
  rw [withStatusCode_ValidationResponse]
  simp [report, h6]

/-- Handler whose cached namespace read fails with an error that is not
not-found. -/
def c2Handler : mutationHandler :=
  { baseHandler with
    clientGetNamespace := fun _ => .error { notFound := false, msg := "connection refused" } }

/-- The concrete request used with `c2Handler`: a CREATE in namespace
"ns1". -/
def c2Request : AdmissionRequest := { baseRequest with nspace := "ns1" }

/-- Witness for C2 at a concrete handler whose namespace fetch fails with
"connection refused". -/
theorem c2_witness :
    reviewRequest c2Handler c2Request =
      some (.error ⟨false, "connection refused"⟩, ⟨true, false, none, false, false⟩) ∧
    (Handle c2Handler c2Request).resp = some ⟨false, some ⟨500, "connection refused"⟩⟩ ∧
    (Handle c2Handler c2Request).reports = [(mutationErrorResponse, 5)] := by
  refine ⟨by decide, ?_⟩
  have := c2_error_fails_closed c2Handler c2Request
    ⟨false, "connection refused"⟩ ⟨true, false, none, false, false⟩
    (by decide) (by decide) (by decide) (by decide) (by decide) (by decide)
  exact this

/-- A request issued by the Gatekeeper service account of `baseHandler`. -/
def selfManageRequest : AdmissionRequest :=
  { baseRequest with
    userInfo := { username := "system:serviceaccount:gatekeeper-system:gatekeeper-admin" } }

/-- Counterexample to **C3** as stated: on the self-manage terminal allow
path the reporter executes zero times, not exactly once, even though the
reporter is present. -/
theorem c3_counterexample :
    (Handle baseHandler selfManageRequest).resp =
      some (ValidationResponse true "Gatekeeper does not self-manage") ∧
    baseHandler.reporterPresent = true ∧
    (Handle baseHandler selfManageRequest).reports = [] := by decide

/-- **C3 (amended)**: with a non-nil reporter, the recording call executes
exactly once for every request that passes the self-manage, operation and
own-resource filter checks (whatever terminal path follows, the panic path
included), and zero times on those three early-return paths, which run
before the reporting `defer` is registered. Elapsed durations are `Nat`s in
this model, hence non-negative. -/
theorem c3_reporter_once_after_filters (h : mutationHandler) (req : AdmissionRequest)
    (h6 : h.reporterPresent = true) :
    ((isGkServiceAccount h req.userInfo = false ∧
      (req.operation != operationCreate && req.operation != operationUpdate) = false ∧
      isGatekeeperResource req = false) →
      (Handle h req).reports.length = 1) ∧
    ((isGkServiceAccount h req.userInfo = true ∨
      (req.operation != operationCreate && req.operation != operationUpdate) = true ∨
      isGatekeeperResource req = true) →
      (Handle h req).reports = []) := by
  constructor
  · rintro ⟨f1, f2, f3⟩
    simp only [Handle, f1, f2, f3, Bool.false_eq_true, if_false]
    repeat' split
    all_goals simp [report, h6]
  · intro hf
    by_cases f1 : isGkServiceAccount h req.userInfo = true
    · simp [Handle, f1]
    · simp only [Bool.not_eq_true] at f1
      by_cases f2 : (req.operation != operationCreate && req.operation != operationUpdate) = true
      · simp [Handle, f1, f2]
      · simp only [Bool.not_eq_true] at f2
        rcases hf with hf | hf | hf
        · rw [f1] at hf; exact Bool.noConfusion hf
        · rw [f2] at hf; exact Bool.noConfusion hf
        · simp [Handle, f1, f2, hf]

/-- Witness for the amended C3: `baseRequest` passes the three filters and
is reported exactly once. -/
theorem c3_witness :
    baseHandler.reporterPresent = true ∧
    isGkServiceAccount baseHandler baseRequest.userInfo = false ∧
    (Handle baseHandler baseRequest).reports.length = 1 :=
  ⟨rfl, by decide,
    (c3_reporter_once_after_filters baseHandler baseRequest rfl).1
      ⟨by decide, by decide, by decide⟩⟩

/-- Handler with no injected config and a nil object-store client. -/
def noClientHandler : mutationHandler :=
  { baseHandler with injectedConfig := none, clientPresent := false }

/-- Counterexample to **C4** as stated: with a missing object-store client
the tracing computation does not default to disabled — `getConfig` returns
a nil config pointer, `tracingLevel` dereferences it (runtime panic,
modelled as `none`), and the request never proceeds to evaluation. -/
theorem c4_counterexample :
    tracingLevel noClientHandler baseRequest = none ∧
    reviewRequest noClientHandler baseRequest = none ∧
    (Handle noClientHandler baseRequest).resp = none := by decide

/-- **C4 (amended)**: a failed DynamicConfig fetch (client present) is
tolerated and not propagated — the tracing directive defaults to
`(enabled = false, dump = false)` and the request proceeds to evaluation
exactly as with an empty config; a missing client, by contrast, yields a
nil config whose dereference panics before evaluation. -/
theorem c4_fetch_error_tolerated (h : mutationHandler) (req : AdmissionRequest)
    (hinj : h.injectedConfig = none) :
    (∀ e : GoErr, h.clientPresent = true → h.clientGetConfig = .error e →
      tracingLevel h req = some (false, false) ∧
      reviewRequest h req =
        reviewRequest { h with injectedConfig := some { traces := [] } } req) ∧
    (h.clientPresent = false →
      tracingLevel h req = none ∧ reviewRequest h req = none) := by
  constructor
  · intro e hp hf
    have hcfg : (getConfig h).1 = some { traces := [] } := by
      simp [getConfig, hinj, hp, hf]
    have htr : tracingLevel h req = some (false, false) := by
      simp [tracingLevel, hcfg, tracingLoop]
    have htr2 : tracingLevel { h with injectedConfig := some { traces := [] } } req =
        some (false, false) := by
      simp [tracingLevel, getConfig, tracingLoop]
    refine ⟨htr, ?_⟩
    simp only [reviewRequest, htr, htr2]
  · intro hp
    have hcfg : (getConfig h).1 = none := by
      simp [getConfig, hinj, hp]
    have htr : tracingLevel h req = none := by
      simp [tracingLevel, hcfg]
    exact ⟨htr, by simp [reviewRequest, htr]⟩

/-- Handler with no injected config whose live config fetch fails. -/
def fetchErrHandler : mutationHandler :=
  { baseHandler with
    injectedConfig := none
    clientGetConfig := .error { notFound := false, msg := "config fetch timeout" } }

/-- Witness for the amended C4, covering both conjuncts: the fetch-error
handler computes a disabled tracing directive, the client-less handler
panics. -/
theorem c4_witness :
    (fetchErrHandler.injectedConfig = none ∧
     fetchErrHandler.clientPresent = true ∧
     fetchErrHandler.clientGetConfig = .error ⟨false, "config fetch timeout"⟩ ∧
     tracingLevel fetchErrHandler baseRequest = some (false, false)) ∧
    (noClientHandler.injectedConfig = none ∧
     noClientHandler.clientPresent = false ∧
     tracingLevel noClientHandler baseRequest = none) :=
  ⟨⟨rfl, rfl, rfl,
    ((c4_fetch_error_tolerated fetchErrHandler baseRequest rfl).1
      ⟨false, "config fetch timeout"⟩ rfl rfl).1⟩,
   ⟨rfl, rfl, ((c4_fetch_error_tolerated noClientHandler baseRequest rfl).2 rfl).1⟩⟩

/-- **C6**: for a request whose namespace (after the Namespace-kind
coercion) is non-empty, resolution first attempts the cached read; the
uncached read runs exactly when the cached read fails not-found; any other
cached-read error, and any uncached-read error, aborts with that error and
no further fallback; success on either path attaches the namespace object
to the review context. -/
theorem c6_namespace_resolution (h : mutationHandler) (req : AdmissionRequest)
    (tr du : Bool) (htr : tracingLevel h req = some (tr, du))
    (hns : (coerceNamespaceKind req).nspace ≠ "") :
    (∀ ns, h.clientGetNamespace (coerceNamespaceKind req).nspace = .ok ns →
      reviewRequest h req =
        some (h.opaReview ⟨coerceNamespaceKind req, some ns⟩ tr,
          ⟨true, false, some ns, tr, du⟩)) ∧
    (∀ e, h.clientGetNamespace (coerceNamespaceKind req).nspace = .error e →
      e.notFound = false →
      reviewRequest h req = some (.error e, ⟨true, false, none, tr, du⟩)) ∧
    (∀ e ns, h.clientGetNamespace (coerceNamespaceKind req).nspace = .error e →
      e.notFound = true →
      h.readerGetNamespace (coerceNamespaceKind req).nspace = .ok ns →
      reviewRequest h req =
        some (h.opaReview ⟨coerceNamespaceKind req, some ns⟩ tr,
          ⟨true, true, some ns, tr, du⟩)) ∧
    (∀ e e2, h.clientGetNamespace (coerceNamespaceKind req).nspace = .error e →
      e.notFound = true →
      h.readerGetNamespace (coerceNamespaceKind req).nspace = .error e2 →
      reviewRequest h req = some (.error e2, ⟨true, true, none, tr, du⟩)) := by
  have hne : ((coerceNamespaceKind req).nspace != "") = true := bne_iff_ne.mpr hns
  refine ⟨?_, ?_, ?_, ?_⟩
  · intro ns hok
    simp [reviewRequest, htr, hne, hok]
  · intro e herr hnf
    simp [reviewRequest, htr, hne, herr, hnf]
  · intro e ns herr hnf hok
    simp [reviewRequest, htr, hne, herr, hnf, hok]
  · intro e e2 herr hnf herr2
    simp [reviewRequest, htr, hne, herr, hnf, herr2]

/-- Handler whose cached namespace read misses (not-found) and whose
uncached read succeeds. -/
def c6Handler : mutationHandler :=
  { baseHandler with readerGetNamespace := fun n => .ok { name := n } }

/-- The concrete request used with `c6Handler`: a CREATE in namespace
"ns1". -/
def c6Request : AdmissionRequest := { baseRequest with nspace := "ns1" }

/-- Witness for C6 on the fallback path: cached read not-found, uncached
read succeeds and the namespace object is attached. -/
theorem c6_witness :
    tracingLevel c6Handler c6Request = some (false, false) ∧
    (coerceNamespaceKind c6Request).nspace ≠ "" ∧
    c6Handler.clientGetNamespace (coerceNamespaceKind c6Request).nspace =
      .error ⟨true, "namespaces not found"⟩ ∧
    c6Handler.readerGetNamespace (coerceNamespaceKind c6Request).nspace =
      .ok ⟨"ns1"⟩ ∧
    reviewRequest c6Handler c6Request =
      some (c6Handler.opaReview ⟨coerceNamespaceKind c6Request, some ⟨"ns1"⟩⟩ false,
        ⟨true, true, some ⟨"ns1"⟩, false, false⟩) :=
  ⟨by decide, by decide, by decide, by decide,
    (c6_namespace_resolution c6Handler c6Request false false (by decide)
      (by decide)).2.2.1 ⟨true, "namespaces not found"⟩ ⟨"ns1"⟩
      (by decide) (by decide) (by decide)⟩

/-- **C7**: the raw-payload decode is attempted exactly when the result set
is non-empty, deny-logging or event-emission is enabled, the request
supplied no name, and a raw payload is present; a decode failure silently
yields an empty display name; and the deny-message list is unaffected by
name resolution (the aggregation never aborts). -/
theorem c7_name_resolution_guard (h : mutationHandler) (res : List RTResult)
    (req : AdmissionRequest) :
    (resourceNameResolution h res req).2 =
      (decide (res.length > 0) && (h.logDenies || h.emitAdmissionEvents) &&
        (req.name.length == 0) && req.object.raw.isSome) ∧
    (∀ raw, req.object.raw = some raw → h.decodeRaw raw = none →
      (resourceNameResolution h res req).2 = true →
      (resourceNameResolution h res req).1 = "") ∧
    (getDenyMessages h res req).msgs = res.filterMap denyFmtOpt := by
  refine ⟨?_, ?_, ?_⟩
  · cases hg : (decide (res.length > 0) && (h.logDenies || h.emitAdmissionEvents)) with
    | false => simp [resourceNameResolution, hg]
    | true =>
      cases hn : (req.name.length == 0) with
      | false => simp [resourceNameResolution, hg, hn]
      | true =>
        cases hraw : req.object.raw with
        | none => simp [resourceNameResolution, hg, hn, hraw]
        | some raw =>
          cases hdec : h.decodeRaw raw with
          | none => simp [resourceNameResolution, hg, hn, hraw, hdec]
          | some nm => simp [resourceNameResolution, hg, hn, hraw, hdec]
  · intro raw hraw hdec hatt
    cases hg : (decide (res.length > 0) && (h.logDenies || h.emitAdmissionEvents)) with
    | false =>
      have hfalse : (resourceNameResolution h res req).2 = false := by
        simp [resourceNameResolution, hg]
      rw [hatt] at hfalse
      exact Bool.noConfusion hfalse
    | true =>
      cases hn : (req.name.length == 0) with
      | false =>
        have hfalse : (resourceNameResolution h res req).2 = false := by
          simp [resourceNameResolution, hg, hn]
        rw [hatt] at hfalse
        exact Bool.noConfusion hfalse
      | true =>
        have hz : req.name.length = 0 := by simpa using hn
        have hname : req.name = "" := string_eq_empty_of_length_eq_zero hz
        simp [resourceNameResolution, hg, hraw, hdec, hname]
  · simp [getDenyMessages, getDenyMessagesLoop_eq]

/-- Handler with deny-logging enabled (decode always failing, as in
`baseHandler`). -/
def c7Handler : mutationHandler := { baseHandler with logDenies := true }

/-- Request with no supplied name and a raw payload present. -/
def c7Request : AdmissionRequest :=
  { baseRequest with name := "", object := { raw := some [1, 2, 3] } }

/-- Witness for C7: with one result, deny-logging on, no supplied name and
a raw payload whose decode fails, the decode is attempted and the resolved
name is empty. -/
theorem c7_witness :
    c7Request.object.raw = some [1, 2, 3] ∧
    c7Handler.decodeRaw [1, 2, 3] = none ∧
    (resourceNameResolution c7Handler [denyResult] c7Request).2 = true ∧
    (resourceNameResolution c7Handler [denyResult] c7Request).1 = "" :=
  ⟨rfl, rfl, by decide,
    (c7_name_resolution_guard c7Handler [denyResult] c7Request).2.1
      [1, 2, 3] rfl rfl (by decide)⟩

/-- **C8**: on the same class of evaluation error, the sibling skeleton
handler's error branch answers allowed = true with status 500 (fail-open)
while the primary handler answers allowed = false with status 500
(fail-closed); the two handlers disagree on the error path. In the source
the skeleton's `mutateRequest` never returns an error (`mutateRequest`
here always returns `.ok`), so its error branch is exercised through the
call-site-parameterized `skeletonHandleWith`. -/
theorem c8_skeleton_fails_open (h : mutationHandler) (req : AdmissionRequest)
    (e : GoErr) (eff : ReviewEffects)
    (h1 : isGkServiceAccount h req.userInfo = false)
    (h2 : (req.operation != operationCreate && req.operation != operationUpdate) = false)
    (h3 : isGatekeeperResource req = false)
    (h4 : skipExcludedNamespace h req.nspace = false)
    (h5 : reviewRequest h req = some (.error e, eff)) :
    (skeletonHandleWith h req (.error e)).resp = some ⟨true, some ⟨500, ""⟩⟩ ∧
    (Handle h req).resp = some ⟨false, some ⟨500, e.msg⟩⟩ ∧
    (skeletonHandleWith h req (.error e)).resp ≠ (Handle h req).resp := by
  have hs : (skeletonHandleWith h req (.error e)).resp = some ⟨true, some ⟨500, ""⟩⟩ := by
    simp [skeletonHandleWith, h1, h2, h3, h4]
  have hh : (Handle h req).resp = some ⟨false, some ⟨500, e.msg⟩⟩ := by
    simp only [Handle, h1, h2, h3, h4, h5, Bool.false_eq_true, if_false]
    rw [withStatusCode_ValidationResponse]
  refine ⟨hs, hh, ?_⟩
  rw [hs, hh]
  simp

/-- Witness for C8 at the concrete error handler of C2: the sibling
skeleton allows where the primary denies. -/
theorem c8_witness :
    reviewRequest c2Handler c2Request =
      some (.error ⟨false, "connection refused"⟩, ⟨true, false, none, false, false⟩) ∧
    (skeletonHandleWith c2Handler c2Request (.error ⟨false, "connection refused"⟩)).resp =
      some ⟨true, some ⟨500, ""⟩⟩ ∧
    (Handle c2Handler c2Request).resp = some ⟨false, some ⟨500, "connection refused"⟩⟩ := by
  refine ⟨by decide, ?_, ?_⟩
  · exact (c8_skeleton_fails_open c2Handler c2Request
      ⟨false, "connection refused"⟩ ⟨true, false, none, false, false⟩
      (by decide) (by decide) (by decide) (by decide) (by decide)).1
  · exact (c8_skeleton_fails_open c2Handler c2Request
      ⟨false, "connection refused"⟩ ⟨true, false, none, false, false⟩
      (by decide) (by decide) (by decide) (by decide) (by decide)).2.1

/-- **C9**: a request for kind group "" / kind "Namespace" has its
namespace field cleared before the review context is built, so no
Namespace object is fetched (neither cached nor uncached read runs) and
none is attached, even when the namespace field was non-empty. -/
theorem c9_namespace_kind_cleared (h : mutationHandler) (req : AdmissionRequest)
    (tr du : Bool) (hg : req.kind.group = "") (hk : req.kind.kind = "Namespace")
    (htr : tracingLevel h req = some (tr, du)) :
    coerceNamespaceKind req = { req with nspace := "" } ∧
    reviewRequest h req =
      some (h.opaReview ⟨{ req with nspace := "" }, none⟩ tr,
        ⟨false, false, none, tr, du⟩) := by
  have hco : coerceNamespaceKind req = { req with nspace := "" } := by
    simp [coerceNamespaceKind, hg, hk]
  refine ⟨hco, ?_⟩
  simp [reviewRequest, htr, hco]

/-- A Namespace-kind CREATE request whose namespace field is non-empty. -/
def c9Request : AdmissionRequest :=
  { baseRequest with
    kind := { group := "", version := "v1", kind := "Namespace" }
    nspace := "target-ns" }

/-- Witness for C9: the Namespace-kind request with non-empty namespace is
reviewed with no namespace fetched or attached. -/
theorem c9_witness :
    c9Request.kind.group = "" ∧ c9Request.kind.kind = "Namespace" ∧
    c9Request.nspace = "target-ns" ∧
    tracingLevel baseHandler c9Request = some (false, false) ∧
    reviewRequest baseHandler c9Request =
      some (baseHandler.opaReview ⟨{ c9Request with nspace := "" }, none⟩ false,
        ⟨false, false, none, false, false⟩) :=
  ⟨rfl, rfl, rfl, by decide,
    (c9_namespace_kind_cleared baseHandler c9Request false false rfl rfl
      (by decide)).2⟩
